import Mathlib

/-!
Verification development for the power-market forecast / bid-optimization core.

The two operations with computational content are embedded here:

* the bid-optimization handler (`pages/api/available-dates.js`, the POST
  `optimize` handler in that file), modelled by `optimizeHandler` /
  `optimizeCore`;
* the price-forecast handler (`pages/api/predict.js`), modelled by
  `predictHandler` / `forecastCore`.

JavaScript numbers are modelled as exact rationals `ℚ`; a value that can be
`NaN` in the source (everything derived from a predicted price when the
input array is empty, since `[].reduce((a,b)=>a+b,0)/0 = NaN`) is modelled
as `Option ℚ` with `none` standing for `NaN`, and arithmetic on such values
propagates `none` exactly as JS arithmetic propagates `NaN`.
`Math.random()` is modelled as an injected stream `rng : ℕ → ℚ`; the i-th
call of the handler reads `rng i` (each forecast slot makes two calls, one
for the price and one for the confidence).  Floating-point rounding error
is not modelled; all arithmetic is exact.
-/

namespace PowerMarket

/-- JS `Math.round` on a finite number: round half toward positive infinity,
`Math.round x = ⌊x + 0.5⌋`. -/
def jround (x : ℚ) : ℚ := (⌊x + 1/2⌋ : ℤ)

/-- JS `Math.round(x * 100) / 100` (round to 2 decimal places). -/
def round2 (x : ℚ) : ℚ := jround (x * 100) / 100

/-- JS `Math.round(x * 1000) / 1000` (round to 3 decimal places). -/
def round3 (x : ℚ) : ℚ := jround (x * 1000) / 1000

/-- NaN-propagating addition on JS numbers modelled as `Option ℚ`
(`none` = `NaN`). -/
def nadd : Option ℚ → Option ℚ → Option ℚ
  | some a, some b => some (a + b)
  | _, _ => none

/-- The property keys of `Object.prototype`.  For these keys the source's
`riskFactors[risk_level]` bracket lookup does not give `undefined`: it
walks the prototype chain and returns an inherited, truthy non-number (a
function, or the prototype object itself for `__proto__`), so the
`|| 1.0` fallback never applies. -/
def protoKeys : List String :=
  ["constructor", "hasOwnProperty", "isPrototypeOf", "propertyIsEnumerable",
   "toLocaleString", "toString", "valueOf", "__defineGetter__",
   "__defineSetter__", "__lookupGetter__", "__lookupSetter__", "__proto__"]

/-- The source's `riskFactors[risk_level] || 1.0`.  An own key of
`{low: 0.9, medium: 1.0, high: 1.1}` yields its numeric factor; an
inherited `Object.prototype` key yields a truthy non-number, so the
fallback does not kick in and every arithmetic product with the factor is
`NaN` — modelled as `none`; any other string yields `undefined`, which is
falsy, so the fallback `1.0` applies. -/
def riskFactor (risk_level : String) : Option ℚ :=
  if risk_level = "low" then some (9/10)
  else if risk_level = "medium" then some 1
  else if risk_level = "high" then some (11/10)
  else if risk_level ∈ protoKeys then none
  else some 1

/-- The `capacityRatio` assigned in the optimize loop: `0.8` for hours 7–8,
`0.9` for hours 18–20, `0.3` for hours 0–5, default `0.5`. -/
def capacityRatio (hour : ℕ) : ℚ :=
  if 7 ≤ hour ∧ hour < 9 then 8/10
  else if 18 ≤ hour ∧ hour < 21 then 9/10
  else if hour < 6 then 3/10
  else 1/2

/-- The `priceRatio` assigned in the optimize loop: `1.1` for hours 7–8,
`1.15` for hours 18–20, `0.85` for hours 0–5, default `1.0`. -/
def priceRatio (hour : ℕ) : ℚ :=
  if 7 ≤ hour ∧ hour < 9 then 11/10
  else if 18 ≤ hour ∧ hour < 21 then 23/20
  else if hour < 6 then 17/20
  else 1

/-- The source's `sortedPrices.reduce((a,b) => a+b, 0) / sortedPrices.length`: sorting
does not change the (exact) sum, so this is the arithmetic mean; for an
empty array it is JS `0/0 = NaN`, modelled as `none`. -/
def avgPrice (ps : List ℚ) : Option ℚ :=
  if ps = [] then none else some (ps.sum / (ps.length : ℚ))

/-- The source's `predicted_prices[i] || avgPrice`: an in-range nonzero entry is used as
is; a missing entry (`undefined`, index past the end) and a zero entry
(falsy in JS) both fall back to `avgPrice`. -/
def predictedPriceAt (ps : List ℚ) (i : ℕ) : Option ℚ :=
  match ps[i]? with
  | some v => if v = 0 then avgPrice ps else some v
  | none => avgPrice ps

/-- JS `String(n).padStart(2, '0')` for the `HH:MM` time-period label. -/
def pad2 (n : ℕ) : String := if n < 10 then ("0") ++ toString n else toString n

/-- One element of `optimized_bids` (fields as in the JSON response).
`bid_price`, `expected_profit` and `predicted_price` can be `NaN`
(modelled `none`) when the input array is empty. -/
structure BidEntry where
  time_period : String
  bid_price : Option ℚ
  bid_quantity : ℚ
  win_probability : ℚ
  expected_profit : Option ℚ
  predicted_price : Option ℚ
deriving DecidableEq

/-- The source's `Math.round(max_capacity * capacityRatio)` for slot `i` (hour `i / 4`). -/
def bidQuantity (max_capacity : ℚ) (i : ℕ) : ℚ :=
  jround (max_capacity * capacityRatio (i / 4))

/-- The source's `Math.round(predictedPrice * priceRatio * riskFactor * 100) / 100` for
slot `i`, `NaN` (`none`) when the predicted price is `NaN` or the risk
factor is an inherited non-number. -/
def bidPrice (ps : List ℚ) (risk_level : String) (i : ℕ) : Option ℚ :=
  match predictedPriceAt ps i, riskFactor risk_level with
  | some p, some rf => some (round2 (p * priceRatio (i / 4) * rf))
  | _, _ => none

/-- The raw `winProbability` of slot `i` before its 3-decimal rounding:
`Math.max(0.1, Math.min(0.95, 0.95 - (priceRatio - 1) * 0.5))`. -/
def winProbRaw (i : ℕ) : ℚ :=
  max (1/10) (min (19/20) (19/20 - (priceRatio (i / 4) - 1) * (1/2)))

/-- The source's `Math.round(capacity * (bidPrice - predictedPrice * 0.7) * winProbability)`
for slot `i`; note the source uses the unrounded `winProbability` here. -/
def expectedProfit (ps : List ℚ) (max_capacity : ℚ) (risk_level : String) (i : ℕ) : Option ℚ :=
  match predictedPriceAt ps i, bidPrice ps risk_level i with
  | some p, some b => some (jround (bidQuantity max_capacity i * (b - p * (7/10)) * winProbRaw i))
  | _, _ => none

/-- The bid entry pushed for slot `i` of the optimize loop. -/
def mkBid (ps : List ℚ) (max_capacity : ℚ) (risk_level : String) (i : ℕ) : BidEntry :=
  { time_period := pad2 (i / 4) ++ ":" ++ pad2 ((i % 4) * 15)
    bid_price := bidPrice ps risk_level i
    bid_quantity := bidQuantity max_capacity i
    win_probability := round3 (winProbRaw i)
    expected_profit := expectedProfit ps max_capacity risk_level i
    predicted_price := predictedPriceAt ps i }

/-- The 96-iteration loop `for (let i = 0; i < 96; i++) optimizedBids.push(...)`. -/
def optimizedBids (ps : List ℚ) (max_capacity : ℚ) (risk_level : String) : List BidEntry :=
  (List.range 96).map (mkBid ps max_capacity risk_level)

/-- The `summary` object of the optimize response. -/
structure Summary where
  total_capacity : ℚ
  average_win_probability : ℚ
  expected_profit : Option ℚ
  average_bid_price : Option ℚ
  risk_level : String
  total_bids : ℕ
deriving DecidableEq

/-- The aggregate statistics of the optimize handler, mirroring the four
`reduce` calls and the rounding applied when the `summary` JSON is built. -/
def mkSummary (risk_level : String) (bids : List BidEntry) : Summary :=
  { total_capacity := bids.foldl (fun s b => s + b.bid_quantity) 0
    average_win_probability :=
      round3 ((bids.foldl (fun s b => s + b.win_probability) 0) / (bids.length : ℚ))
    expected_profit := (bids.foldl (fun s b => nadd s b.expected_profit) (some 0)).map jround
    average_bid_price :=
      ((bids.foldl (fun s b => nadd s b.bid_price) (some 0)).map
        (fun s => round2 (s / (bids.length : ℚ))))
    risk_level := risk_level
    total_bids := bids.length }

/-- The optimize request body; `none` in `predicted_prices` stands for a
missing or non-array value, `none` in the other fields triggers the
destructuring defaults `1000`, `100`, `"medium"`. -/
structure OptimizeRequest where
  predicted_prices : Option (List ℚ)
  max_capacity : Option ℚ
  min_capacity : Option ℚ
  risk_level : Option String

/-- Outcome of the optimize handler: HTTP 400 with an error message, or
HTTP 200 with the bid list and summary. -/
inductive OptimizeResponse where
  | invalidInput (error : String)
  | ok (optimized_bids : List BidEntry) (summary : Summary)
deriving DecidableEq

/-- The body of the optimize handler after validation: the bid list and its
summary.  `min_capacity` is accepted by the handler but never read, so it
does not appear here. -/
def optimizeCore (ps : List ℚ) (max_capacity : ℚ) (risk_level : String) :
    List BidEntry × Summary :=
  (optimizedBids ps max_capacity risk_level,
   mkSummary risk_level (optimizedBids ps max_capacity risk_level))

/-- The optimize POST handler: reject only a missing / non-array
`predicted_prices` (`!predicted_prices || !Array.isArray(predicted_prices)`),
then run the optimization.  An empty array is an array and passes. -/
def optimizeHandler (req : OptimizeRequest) : OptimizeResponse :=
  match req.predicted_prices with
  | none => .invalidInput ("Predicted prices array is required")
  | some ps =>
      .ok (optimizeCore ps (req.max_capacity.getD 1000) (req.risk_level.getD ("medium"))).1
          (optimizeCore ps (req.max_capacity.getD 1000) (req.risk_level.getD ("medium"))).2

/-- A calendar date (year, month, day). -/
abbrev JsDate := ℕ × ℕ × ℕ

/-- Split a character list at each `-`, keeping empty groups. -/
def splitDash (l : List Char) : List (List Char) :=
  l.foldr (fun c acc =>
    if c = '-' then [] :: acc
    else match acc with
      | [] => [[c]]
      | g :: gs => (c :: g) :: gs) [[]]

/-- Digit string to number, `"0630".foldl (n*10 + digit)`. -/
def digitsToNat (l : List Char) : ℕ := l.foldl (fun n c => n * 10 + (c.toNat - 48)) 0

/-- Every character is a decimal digit. -/
def allDigits (l : List Char) : Bool := l.all Char.isDigit

/-- Modelled from the platform: `new Date(s)` restricted to the ISO
`YYYY-MM-DD` date-only format that the API exchanges.  Returns the parsed
(year, month, day), or `none` when JS would produce an Invalid Date
(non-ISO text, out-of-range month/day).  Other platform-specific date
formats accepted by some engines are out of scope of the claims. -/
def jsParseDate (s : String) : Option JsDate :=
  match splitDash s.data with
  | [y, m, d] =>
      if allDigits y ∧ allDigits m ∧ allDigits d
         ∧ y.length = 4 ∧ m.length = 2 ∧ d.length = 2
         ∧ 1 ≤ digitsToNat m ∧ digitsToNat m ≤ 12
         ∧ 1 ≤ digitsToNat d ∧ digitsToNat d ≤ 31
      then some (digitsToNat y, digitsToNat m, digitsToNat d)
      else none
  | _ => none

/-- One element of the forecast `predictions` array.  The source stores the
timestamp as the base date with `setHours(hour, minute, 0, 0)`; it is
modelled here as the date plus the local hour and minute. -/
structure Prediction where
  date : JsDate
  hour : ℕ
  minute : ℕ
  predicted_price : ℚ
  confidence : ℚ
  lower_bound : ℚ
  upper_bound : ℚ
deriving DecidableEq

/-- The raw predicted price of the forecast loop: each hour bucket draws
uniformly from its band via one `Math.random()` call `r`.  The initial
`400` is dead code since the four branches cover every hour. -/
def basePrice (hour : ℕ) (r : ℚ) : ℚ :=
  if 7 ≤ hour ∧ hour < 9 then 560 + r * 80
  else if 18 ≤ hour ∧ hour < 21 then 610 + r * 120
  else if hour < 6 then 260 + r * 40
  else 410 + r * 90

/-- The prediction pushed for slot `i`: the slot draws `rng (2*i)` for the
price and `rng (2*i + 1)` for the confidence, `margin = price * 0.1`, and
the three price fields are rounded to 2 decimals, confidence to 3. -/
def mkPrediction (d : JsDate) (rng : ℕ → ℚ) (i : ℕ) : Prediction :=
  { date := d
    hour := i / 4
    minute := (i % 4) * 15
    predicted_price := round2 (basePrice (i / 4) (rng (2 * i)))
    confidence := round3 (17/20 + rng (2 * i + 1) * (1/10))
    lower_bound := round2 (basePrice (i / 4) (rng (2 * i)) - basePrice (i / 4) (rng (2 * i)) * (1/10))
    upper_bound := round2 (basePrice (i / 4) (rng (2 * i)) + basePrice (i / 4) (rng (2 * i)) * (1/10)) }

/-- The 96-iteration forecast loop of the predict handler. -/
def forecastCore (d : JsDate) (rng : ℕ → ℚ) : List Prediction :=
  (List.range 96).map (mkPrediction d rng)

/-- Outcome of the predict handler.  `runtimeError` models the uncaught
`RangeError` thrown by `timestamp.toISOString()` when `new Date(date)` is
an Invalid Date: the handler aborts with a raw runtime error (HTTP 500)
instead of producing a response of its own. -/
inductive PredictResult where
  | invalidInput (error : String)
  | runtimeError
  | ok (date : String) (predictions : List Prediction)
deriving DecidableEq

/-- The predict POST handler: `!date` (absent or empty string) is rejected
with HTTP 400; a non-empty unparsable date passes validation, every
`timestamp` built from it is an Invalid Date, and the first `toISOString()`
throws, so no predictions are ever returned.  The response `statistics`
and `model_info` blocks are derived metadata not needed by any claim and
are not modelled. -/
def predictHandler (date : Option String) (rng : ℕ → ℚ) : PredictResult :=
  match date with
  | none => .invalidInput ("Date parameter is required")
  | some s =>
      if s = "" then .invalidInput ("Date parameter is required")
      else
        match jsParseDate s with
        | none => .runtimeError
        | some d => .ok s (forecastCore d rng)

/-- Minutes after local midnight of a prediction's timestamp. -/
def slotMinutes (p : Prediction) : ℕ := p.hour * 60 + p.minute

/-- A concrete deterministic stand-in for the `Math.random()` stream. -/
def constHalf : ℕ → ℚ := fun _ => 1/2

/-- The risk-level mapping exactly as the spec words it: `low → 0.9`,
`medium → 1.0`, `high → 1.1`, any other value falls back to `1.0`.
To be compared with the source-derived `riskFactor`. -/
def specRiskFactor (risk_level : String) : ℚ :=
  if risk_level = "low" then 9/10
  else if risk_level = "medium" then 1
  else if risk_level = "high" then 11/10
  else 1

/-- The spec's bid-price formula
`round(predicted_price * segment.price_ratio * risk_factor, 2)`. -/
def specBidPriceAt (risk_level : String) (hour : ℕ) (p : ℚ) : ℚ :=
  round2 (p * priceRatio hour * specRiskFactor risk_level)

/-- The spec's expected-profit formula
`round(bid_quantity * (bid_price - predicted_price * 0.7) * win_probability)`,
stated with the entry's (3-decimal-rounded) `win_probability`. -/
def specExpectedProfitAt (q wp : ℚ) (risk_level : String) (hour : ℕ) (p : ℚ) : ℚ :=
  jround (q * (specBidPriceAt risk_level hour p - p * (7/10)) * wp)

end PowerMarket

namespace PowerMarket

theorem jround_mono {a b : ℚ} (h : a ≤ b) : jround a ≤ jround b := by
  unfold jround
  exact_mod_cast Int.floor_mono (by linarith)

theorem round2_mono {a b : ℚ} (h : a ≤ b) : round2 a ≤ round2 b := by
  unfold round2
  have := jround_mono (mul_le_mul_of_nonneg_right h (by norm_num : (0:ℚ) ≤ 100))
  linarith

theorem round3_mono {a b : ℚ} (h : a ≤ b) : round3 a ≤ round3 b := by
  unfold round3
  have := jround_mono (mul_le_mul_of_nonneg_right h (by norm_num : (0:ℚ) ≤ 1000))
  linarith

theorem optimizeCore_fst_getElem (ps : List ℚ) (mc : ℚ) (rl : String) (i : ℕ) (hi : i < 96) :
    (optimizeCore ps mc rl).1[i]? = some (mkBid ps mc rl i) := by
  show (optimizedBids ps mc rl)[i]? = _
  rw [optimizedBids, List.getElem?_map, List.getElem?_range hi]
  rfl

theorem forecastCore_getElem (d : JsDate) (rng : ℕ → ℚ) (i : ℕ) (hi : i < 96) :
    (forecastCore d rng)[i]? = some (mkPrediction d rng i) := by
  rw [forecastCore, List.getElem?_map, List.getElem?_range hi]
  rfl

theorem priceRatio_pos (h : ℕ) : 0 < priceRatio h := by
  unfold priceRatio
  by_cases h1 : 7 ≤ h ∧ h < 9 <;> by_cases h2 : 18 ≤ h ∧ h < 21 <;> by_cases h3 : h < 6 <;>
    simp [h1, h2, h3]

theorem capacityRatio_bounds (h : ℕ) : 0 ≤ capacityRatio h ∧ capacityRatio h ≤ 9/10 := by
  unfold capacityRatio
  by_cases h1 : 7 ≤ h ∧ h < 9 <;> by_cases h2 : 18 ≤ h ∧ h < 21 <;> by_cases h3 : h < 6 <;>
    simp [h1, h2, h3] <;> norm_num

theorem winProbRaw_bounds (i : ℕ) : 1/10 ≤ winProbRaw i ∧ winProbRaw i ≤ 19/20 :=
  ⟨le_max_left _ _, max_le (by norm_num) (min_le_left _ _)⟩

theorem round3_winProbRaw (i : ℕ) : round3 (winProbRaw i) = winProbRaw i := by
  unfold winProbRaw priceRatio
  by_cases h1 : 7 ≤ i / 4 ∧ i / 4 < 9 <;> by_cases h2 : 18 ≤ i / 4 ∧ i / 4 < 21 <;>
    by_cases h3 : i / 4 < 6 <;>
    simp [h1, h2, h3] <;> norm_num [round3, jround, max_def, min_def]

theorem basePrice_nonneg (h : ℕ) {r : ℚ} (hr : 0 ≤ r) : 0 ≤ basePrice h r := by
  unfold basePrice
  by_cases h1 : 7 ≤ h ∧ h < 9 <;> by_cases h2 : 18 ≤ h ∧ h < 21 <;> by_cases h3 : h < 6 <;>
    simp [h1, h2, h3] <;> nlinarith

theorem predictedPriceAt_some (ps : List ℚ) (i : ℕ) (hne : ps ≠ []) :
    ∃ p, predictedPriceAt ps i = some p ∧ (p ∈ ps ∨ p = ps.sum / (ps.length : ℚ)) := by
  unfold predictedPriceAt
  cases h : ps[i]? with
  | none => exact ⟨_, by simp [avgPrice, hne], Or.inr rfl⟩
  | some v =>
    by_cases hv : v = 0
    · exact ⟨_, by simp [hv, avgPrice, hne], Or.inr rfl⟩
    · refine ⟨v, by simp [hv], Or.inl ?_⟩
      obtain ⟨hlt, rfl⟩ := List.getElem?_eq_some.mp h
      exact List.getElem_mem hlt

theorem predictedPriceAt_nonneg {ps : List ℚ} (i : ℕ) (hne : ps ≠ [])
    (hnn : ∀ x ∈ ps, 0 ≤ x) :
    ∃ p, predictedPriceAt ps i = some p ∧ 0 ≤ p := by
  obtain ⟨p, hp, hmem | havg⟩ := predictedPriceAt_some ps i hne
  · exact ⟨p, hp, hnn p hmem⟩
  · exact ⟨p, hp, havg ▸ div_nonneg (List.sum_nonneg hnn) (by positivity)⟩

theorem riskFactor_of_not_proto {rl : String} (h : rl ∉ protoKeys) :
    riskFactor rl = some (specRiskFactor rl) := by
  unfold riskFactor specRiskFactor
  by_cases h1 : rl = "low" <;> by_cases h2 : rl = "medium" <;> by_cases h3 : rl = "high" <;>
    simp [h1, h2, h3, h]

theorem foldl_add_bidQuantity (l : List BidEntry) (a : ℚ) :
    l.foldl (fun s b => s + b.bid_quantity) a = a + (l.map BidEntry.bid_quantity).sum := by
  induction l generalizing a with
  | nil => simp
  | cons x xs ih => simp [ih, add_assoc]

end PowerMarket

namespace PowerMarket

/-- Claim C1 (code bug in the source): the optimize handler, called with an
empty `predicted_prices` array, does NOT return an `InvalidInput` error:
the empty array passes the `!predicted_prices || !Array.isArray(...)` check,
`avgPrice` becomes `0/0 = NaN`, and the handler returns a success response
in which every entry's `predicted_price` and `bid_price` are `NaN`
(modelled `none`), contradicting the spec's requirement that this edge
case be converted to `InvalidInput`. -/
theorem C1_empty_prices_success_with_nan :
    optimizeHandler ⟨some [], none, none, none⟩ =
      OptimizeResponse.ok (optimizeCore [] 1000 ("medium")).1 (optimizeCore [] 1000 ("medium")).2 ∧
    (optimizeCore [] 1000 ("medium")).1.map BidEntry.bid_price = List.replicate 96 none ∧
    (optimizeCore [] 1000 ("medium")).1.map BidEntry.predicted_price = List.replicate 96 none := by
  refine ⟨rfl, ?_, ?_⟩ <;> decide

/-- Claim C2 (code bug in the source): an absent or empty `date` is rejected
with the `InvalidInput` validation error, but a non-empty unparsable date
string such as "garbage" passes the `!date` check, `new Date("garbage")` is
an Invalid Date, and `timestamp.toISOString()` throws an uncaught
`RangeError` — a raw runtime error, not an `InvalidInput` response. -/
theorem C2_unparsable_date_runtime_error :
    predictHandler (some ("garbage")) constHalf = PredictResult.runtimeError ∧
    predictHandler none constHalf = PredictResult.invalidInput ("Date parameter is required") ∧
    predictHandler (some ("")) constHalf = PredictResult.invalidInput ("Date parameter is required") := by
  refine ⟨by decide, rfl, by decide⟩

/-- Claim C3: an optimize call whose `predicted_prices` has exactly 96
entries returns exactly 96 `optimized_bids`, and `summary.total_capacity`
equals the exact sum of `bid_quantity` over the returned entries. -/
theorem C3_bid_count_and_total_capacity (ps : List ℚ) (hlen : ps.length = 96)
    (mc : ℚ) (rl : String) :
    (optimizeCore ps mc rl).1.length = 96 ∧
    (optimizeCore ps mc rl).2.total_capacity =
      ((optimizeCore ps mc rl).1.map BidEntry.bid_quantity).sum := by
  constructor
  · show (optimizedBids ps mc rl).length = 96
    simp [optimizedBids]
  · show (optimizedBids ps mc rl).foldl (fun s b => s + b.bid_quantity) 0 =
      ((optimizedBids ps mc rl).map BidEntry.bid_quantity).sum
    rw [foldl_add_bidQuantity, zero_add]

/-- Witness for C3 at the concrete input `replicate 96 500`. -/
theorem C3_witness :
    (optimizeCore (List.replicate 96 (500:ℚ)) 1000 ("medium")).1.length = 96 ∧
    (optimizeCore (List.replicate 96 (500:ℚ)) 1000 ("medium")).2.total_capacity =
      ((optimizeCore (List.replicate 96 (500:ℚ)) 1000 ("medium")).1.map BidEntry.bid_quantity).sum :=
  C3_bid_count_and_total_capacity (List.replicate 96 (500:ℚ)) (by simp) 1000 ("medium")

/-- Claim C4 counterexample: with `predicted_prices = [-100]` the slot-0 bid
price under `risk_level = "high"` is `-93.5`, strictly BELOW the `-76.5`
produced under `"low"` on the same inputs, refuting the claim's
unconditional monotonicity. -/
theorem C4_counterexample :
    ((optimizeCore [(-100:ℚ)] 1000 ("high")).1[0]?).map BidEntry.bid_price =
      some (some (-187/2)) ∧
    ((optimizeCore [(-100:ℚ)] 1000 ("low")).1[0]?).map BidEntry.bid_price =
      some (some (-153/2)) ∧
    ¬ ((-153/2 : ℚ) ≤ (-187/2 : ℚ)) := by
  refine ⟨?_, ?_, by norm_num⟩
  · rw [optimizeCore_fst_getElem _ _ _ 0 (by norm_num)]
    simp only [Option.map_some']
    have hrf : riskFactor ("high") = some (11/10) := rfl
    show some (bidPrice [(-100:ℚ)] ("high") 0) = _
    rw [bidPrice, hrf, show predictedPriceAt [(-100:ℚ)] 0 = some (-100) from by
      norm_num [predictedPriceAt]]
    norm_num [priceRatio, round2, jround]
  · rw [optimizeCore_fst_getElem _ _ _ 0 (by norm_num)]
    simp only [Option.map_some']
    have hrf : riskFactor ("low") = some (9/10) := rfl
    show some (bidPrice [(-100:ℚ)] ("low") 0) = _
    rw [bidPrice, hrf, show predictedPriceAt [(-100:ℚ)] 0 = some (-100) from by
      norm_num [predictedPriceAt]]
    norm_num [priceRatio, round2, jround]

/-- Claim C4, amended: the monotonicity does hold whenever the supplied
predicted prices are all nonnegative (as the spec's data model requires of
prices) and the array is nonempty (so no `NaN` arises): for every slot the
"high" bid price is at least the "low" bid price. -/
theorem C4_amended_risk_monotone (ps : List ℚ) (mc : ℚ) (i : ℕ) (hne : ps ≠ [])
    (hnn : ∀ x ∈ ps, 0 ≤ x) (hi : i < 96) :
    (optimizeCore ps mc ("high")).1[i]? = some (mkBid ps mc ("high") i) ∧
    (optimizeCore ps mc ("low")).1[i]? = some (mkBid ps mc ("low") i) ∧
    (mkBid ps mc ("high") i).bid_price.isSome = true ∧
    (mkBid ps mc ("low") i).bid_price.getD 0 ≤ (mkBid ps mc ("high") i).bid_price.getD 0 := by
  obtain ⟨p, hp, hpnn⟩ := predictedPriceAt_nonneg i hne hnn
  have hhigh : (mkBid ps mc ("high") i).bid_price =
      some (round2 (p * priceRatio (i / 4) * (11/10))) := by
    show bidPrice ps ("high") i = _
    rw [bidPrice, hp, show riskFactor ("high") = some (11/10) from rfl]
  have hlow : (mkBid ps mc ("low") i).bid_price =
      some (round2 (p * priceRatio (i / 4) * (9/10))) := by
    show bidPrice ps ("low") i = _
    rw [bidPrice, hp, show riskFactor ("low") = some (9/10) from rfl]
  refine ⟨optimizeCore_fst_getElem _ _ _ i hi, optimizeCore_fst_getElem _ _ _ i hi, ?_, ?_⟩
  · rw [hhigh]; rfl
  · rw [hhigh, hlow]
    simp only [Option.getD_some]
    apply round2_mono
    have hpr := (priceRatio_pos (i / 4)).le
    have hq : 0 ≤ p * priceRatio (i / 4) := mul_nonneg hpnn hpr
    nlinarith

/-- Witness for the amended C4 at `predicted_prices = [500]`, slot 0. -/
theorem C4_witness :
    (optimizeCore [(500:ℚ)] 1000 ("high")).1[0]? = some (mkBid [(500:ℚ)] 1000 ("high") 0) ∧
    (optimizeCore [(500:ℚ)] 1000 ("low")).1[0]? = some (mkBid [(500:ℚ)] 1000 ("low") 0) ∧
    (mkBid [(500:ℚ)] 1000 ("high") 0).bid_price.isSome = true ∧
    (mkBid [(500:ℚ)] 1000 ("low") 0).bid_price.getD 0 ≤
      (mkBid [(500:ℚ)] 1000 ("high") 0).bid_price.getD 0 :=
  C4_amended_risk_monotone [(500:ℚ)] 1000 0 (by simp) (by decide) (by norm_num)

/-- Claim C5 counterexample: with `max_capacity = 0.6` the evening-peak slot
72 gets `bid_quantity = Math.round(0.6 * 0.9) = 1 > 0.6`, refuting the
claim for arbitrary (non-integer) `max_capacity`. -/
theorem C5_counterexample :
    ((optimizeCore [(500:ℚ)] (3/5) ("medium")).1[72]?).map BidEntry.bid_quantity = some (1:ℚ) ∧
    ¬ ((1:ℚ) ≤ 3/5) := by
  constructor
  · rw [optimizeCore_fst_getElem _ _ _ 72 (by norm_num)]
    show some (bidQuantity (3/5) 72) = _
    norm_num [bidQuantity, capacityRatio, jround]
  · norm_num

/-- Claim C5, amended: when `max_capacity` is a nonnegative integer (as in
every documented use; the default is 1000), every returned entry satisfies
`bid_quantity ≤ max_capacity`; and unconditionally every entry's
`win_probability` lies in `[0.1, 0.95]`. -/
theorem C5_amended_capacity_winprob (ps : List ℚ) (n : ℕ) (rl : String) (b : BidEntry)
    (hb : b ∈ (optimizeCore ps (n : ℚ) rl).1) :
    b.bid_quantity ≤ (n : ℚ) ∧ 1/10 ≤ b.win_probability ∧ b.win_probability ≤ 19/20 := by
  obtain ⟨i, hi, rfl⟩ := List.mem_map.mp hb
  refine ⟨?_, ?_, ?_⟩
  · show bidQuantity (n : ℚ) i ≤ (n : ℚ)
    obtain ⟨hc0, hc9⟩ := capacityRatio_bounds (i / 4)
    have hn : (0:ℚ) ≤ (n : ℚ) := Nat.cast_nonneg n
    rw [bidQuantity, jround]
    have hfl : (⌊(n:ℚ) * capacityRatio (i / 4) + 1/2⌋ : ℤ) ≤ (n : ℤ) := by
      rw [Int.floor_le_iff]
      push_cast
      nlinarith [mul_le_mul_of_nonneg_left hc9 hn]
    exact_mod_cast hfl
  · show 1/10 ≤ round3 (winProbRaw i)
    rw [round3_winProbRaw]
    exact (winProbRaw_bounds i).1
  · show round3 (winProbRaw i) ≤ 19/20
    rw [round3_winProbRaw]
    exact (winProbRaw_bounds i).2

/-- Witness for the amended C5 at `predicted_prices = [500]`,
`max_capacity = 1000`, entry of slot 0. -/
theorem C5_witness :
    (mkBid [(500:ℚ)] ((1000:ℕ) : ℚ) ("medium") 0).bid_quantity ≤ ((1000:ℕ) : ℚ) ∧
    1/10 ≤ (mkBid [(500:ℚ)] ((1000:ℕ) : ℚ) ("medium") 0).win_probability ∧
    (mkBid [(500:ℚ)] ((1000:ℕ) : ℚ) ("medium") 0).win_probability ≤ 19/20 :=
  C5_amended_capacity_winprob [(500:ℚ)] 1000 ("medium") _
    (List.mem_map_of_mem _ (by decide))

end PowerMarket

namespace PowerMarket

/-- Claim C6 counterexample: the claim's "risk_factor = 1.0 for any other
risk_level value" fails at `risk_level = "toString"`: the source's
`riskFactors["toString"]` bracket lookup returns the inherited, truthy
`Object.prototype.toString` function, `|| 1.0` does not apply, and the
slot-0 bid price with `predicted_prices = [500]` is `NaN` (`none`) rather
than the claim's `round(500 * 0.85 * 1.0, 2)`; `expected_profit` is `NaN`
too. -/
theorem C6_counterexample :
    (mkBid [(500:ℚ)] 1000 ("toString") 0).predicted_price = some 500 ∧
    (mkBid [(500:ℚ)] 1000 ("toString") 0).bid_price = none ∧
    (mkBid [(500:ℚ)] 1000 ("toString") 0).expected_profit = none ∧
    (mkBid [(500:ℚ)] 1000 ("toString") 0).bid_price ≠
      some (specBidPriceAt ("toString") (0 / 4) 500) := by
  have hpp : predictedPriceAt [(500:ℚ)] 0 = some 500 := by
    norm_num [predictedPriceAt]
  have hrf : riskFactor ("toString") = none := by decide
  have hbp : bidPrice [(500:ℚ)] ("toString") 0 = none := by
    rw [bidPrice, hpp, hrf]
  refine ⟨hpp, hbp, ?_, ?_⟩
  · show expectedProfit [(500:ℚ)] 1000 ("toString") 0 = none
    rw [expectedProfit, hpp, hbp]
  · show bidPrice [(500:ℚ)] ("toString") 0 ≠ _
    rw [hbp]
    simp

/-- Claim C6, amended: for every optimize call whose `risk_level` is not an
inherited `Object.prototype` key (so the bracket lookup behaves as an
own-property lookup), the entry's `bid_price` equals
`round(predicted_price * segment.price_ratio * risk_factor, 2)` and its
`expected_profit` equals
`round(bid_quantity * (bid_price - predicted_price * 0.7) * win_probability)`,
with the spec's risk mapping (`low→0.9`, `medium→1.0`, `high→1.1`, other
strings `1.0`) and the segment ratio of hour `i / 4`; `NaN` predicted
prices (empty input) propagate to both fields, which the `Option.map`
formulation captures.  For `Object.prototype` keys the factor is a truthy
inherited non-number and both fields are `NaN` instead (see the
counterexample). -/
theorem C6_amended_formulas (ps : List ℚ) (mc : ℚ) (rl : String) (i : ℕ)
    (hi : i < 96) (hrl : rl ∉ protoKeys) :
    (optimizeCore ps mc rl).1[i]? = some (mkBid ps mc rl i) ∧
    (mkBid ps mc rl i).bid_price =
      ((mkBid ps mc rl i).predicted_price).map (specBidPriceAt rl (i / 4)) ∧
    (mkBid ps mc rl i).expected_profit =
      ((mkBid ps mc rl i).predicted_price).map
        (specExpectedProfitAt ((mkBid ps mc rl i).bid_quantity)
          ((mkBid ps mc rl i).win_probability) rl (i / 4)) := by
  have hrf := riskFactor_of_not_proto hrl
  refine ⟨optimizeCore_fst_getElem _ _ _ i hi, ?_, ?_⟩
  · show bidPrice ps rl i = (predictedPriceAt ps i).map (specBidPriceAt rl (i / 4))
    rw [bidPrice, hrf]
    cases h : predictedPriceAt ps i <;> rfl
  · show expectedProfit ps mc rl i = (predictedPriceAt ps i).map
      (specExpectedProfitAt (bidQuantity mc i) (round3 (winProbRaw i)) rl (i / 4))
    rw [expectedProfit]
    cases h : predictedPriceAt ps i with
    | none => rw [bidPrice, h]; rfl
    | some p =>
      rw [bidPrice, h, hrf]
      show some _ = some _
      rw [specExpectedProfitAt, round3_winProbRaw]
      rfl

/-- Witness for the amended C6 at `predicted_prices = [500]`, slot 0,
`risk_level = "medium"`. -/
theorem C6_amended_witness :
    (optimizeCore [(500:ℚ)] 1000 ("medium")).1[0]? = some (mkBid [(500:ℚ)] 1000 ("medium") 0) ∧
    (mkBid [(500:ℚ)] 1000 ("medium") 0).bid_price =
      ((mkBid [(500:ℚ)] 1000 ("medium") 0).predicted_price).map (specBidPriceAt ("medium") (0 / 4)) ∧
    (mkBid [(500:ℚ)] 1000 ("medium") 0).expected_profit =
      ((mkBid [(500:ℚ)] 1000 ("medium") 0).predicted_price).map
        (specExpectedProfitAt ((mkBid [(500:ℚ)] 1000 ("medium") 0).bid_quantity)
          ((mkBid [(500:ℚ)] 1000 ("medium") 0).win_probability) ("medium") (0 / 4)) :=
  C6_amended_formulas [(500:ℚ)] 1000 ("medium") 0 (by norm_num) (by decide)

/-- Claim C7: with `max_capacity = 1000`, every evening-peak slot
(slot indices 72–83, time periods 18:00 through 20:45) has
`bid_quantity = round(1000 * 0.9) = 900`. -/
theorem C7_evening_peak_quantity (ps : List ℚ) (rl : String) (i : ℕ)
    (h1 : 72 ≤ i) (h2 : i ≤ 83) :
    (optimizeCore ps 1000 rl).1[i]? = some (mkBid ps 1000 rl i) ∧
    (mkBid ps 1000 rl i).bid_quantity = 900 := by
  refine ⟨optimizeCore_fst_getElem _ _ _ i (by omega), ?_⟩
  show bidQuantity 1000 i = 900
  have hc : capacityRatio (i / 4) = 9/10 := by
    unfold capacityRatio
    rw [if_neg (by omega : ¬(7 ≤ i / 4 ∧ i / 4 < 9)),
        if_pos (⟨by omega, by omega⟩ : 18 ≤ i / 4 ∧ i / 4 < 21)]
  rw [bidQuantity, hc]
  norm_num [jround]

/-- Witness for C7 at slot 72 (time period 18:00). -/
theorem C7_witness :
    (optimizeCore [(500:ℚ)] 1000 ("medium")).1[72]? = some (mkBid [(500:ℚ)] 1000 ("medium") 72) ∧
    (mkBid [(500:ℚ)] 1000 ("medium") 72).bid_quantity = 900 :=
  C7_evening_peak_quantity [(500:ℚ)] ("medium") 72 (by norm_num) (by norm_num)

/-- Claim C8: for every parsable (valid) date string, the forecast operation
succeeds and returns exactly 96 predictions; prediction `i` carries the
requested date and the time-of-day `15 * i` minutes after midnight, so the
slots are chronologically ordered, 15 minutes apart, from 00:00 to 23:45. -/
theorem C8_forecast_count_and_spacing (s : String) (d : JsDate) (rng : ℕ → ℚ) (i : ℕ)
    (hd : jsParseDate s = some d) (hi : i < 96) :
    predictHandler (some s) rng = PredictResult.ok s (forecastCore d rng) ∧
    (forecastCore d rng).length = 96 ∧
    ((forecastCore d rng)[i]?).map slotMinutes = some (15 * i) ∧
    ((forecastCore d rng)[i]?).map Prediction.date = some d := by
  have hse : ¬ s = "" := by
    intro h
    rw [h] at hd
    rw [show jsParseDate ("") = none from rfl] at hd
    exact Option.noConfusion hd
  refine ⟨?_, ?_, ?_, ?_⟩
  · show (if s = "" then PredictResult.invalidInput ("Date parameter is required")
      else match jsParseDate s with
        | none => PredictResult.runtimeError
        | some d => PredictResult.ok s (forecastCore d rng)) = _
    rw [if_neg hse, hd]
  · simp [forecastCore]
  · rw [forecastCore_getElem d rng i hi]
    simp only [Option.map_some', Option.some.injEq]
    show (i / 4) * 60 + (i % 4) * 15 = 15 * i
    omega
  · rw [forecastCore_getElem d rng i hi]
    rfl

/-- Witness for C8 at the valid date 2025-06-30 and the last slot 95. -/
theorem C8_witness :
    predictHandler (some ("2025-06-30")) constHalf =
      PredictResult.ok ("2025-06-30") (forecastCore (2025, 6, 30) constHalf) ∧
    (forecastCore (2025, 6, 30) constHalf).length = 96 ∧
    ((forecastCore (2025, 6, 30) constHalf)[95]?).map slotMinutes = some (15 * 95) ∧
    ((forecastCore (2025, 6, 30) constHalf)[95]?).map Prediction.date = some (2025, 6, 30) :=
  C8_forecast_count_and_spacing ("2025-06-30") (2025, 6, 30) constHalf 95 (by decide) (by norm_num)

/-- Claim C9: for every date and every random stream with values in `[0, 1)`
(the range of `Math.random`), every returned prediction satisfies
`lower_bound ≤ predicted_price ≤ upper_bound` and its confidence lies in
`[0.85, 0.95]`. -/
theorem C9_interval_and_confidence_bounds (d : JsDate) (rng : ℕ → ℚ)
    (hr : ∀ n, 0 ≤ rng n ∧ rng n < 1) (p : Prediction) (hp : p ∈ forecastCore d rng) :
    p.lower_bound ≤ p.predicted_price ∧ p.predicted_price ≤ p.upper_bound ∧
    17/20 ≤ p.confidence ∧ p.confidence ≤ 19/20 := by
  obtain ⟨i, hi, rfl⟩ := List.mem_map.mp hp
  have h0 := (hr (2 * i)).1
  have h1 := (hr (2 * i + 1)).1
  have h2 := (hr (2 * i + 1)).2
  have hbp : 0 ≤ basePrice (i / 4) (rng (2 * i)) := basePrice_nonneg _ h0
  refine ⟨round2_mono (by nlinarith), round2_mono (by nlinarith), ?_, ?_⟩
  · show 17/20 ≤ round3 (17/20 + rng (2 * i + 1) * (1/10))
    calc (17/20 : ℚ) = round3 (17/20) := by norm_num [round3, jround]
    _ ≤ round3 (17/20 + rng (2 * i + 1) * (1/10)) := round3_mono (by nlinarith)
  · show round3 (17/20 + rng (2 * i + 1) * (1/10)) ≤ 19/20
    calc round3 (17/20 + rng (2 * i + 1) * (1/10)) ≤ round3 (19/20) :=
      round3_mono (by nlinarith)
    _ = 19/20 := by norm_num [round3, jround]

/-- Witness for C9 with the constant stream `1/2` and slot 0 of 2025-06-30. -/
theorem C9_witness :
    (mkPrediction (2025, 6, 30) constHalf 0).lower_bound ≤
      (mkPrediction (2025, 6, 30) constHalf 0).predicted_price ∧
    (mkPrediction (2025, 6, 30) constHalf 0).predicted_price ≤
      (mkPrediction (2025, 6, 30) constHalf 0).upper_bound ∧
    17/20 ≤ (mkPrediction (2025, 6, 30) constHalf 0).confidence ∧
    (mkPrediction (2025, 6, 30) constHalf 0).confidence ≤ 19/20 :=
  C9_interval_and_confidence_bounds (2025, 6, 30) constHalf
    (fun n => ⟨by norm_num [constHalf], by norm_num [constHalf]⟩)
    (mkPrediction (2025, 6, 30) constHalf 0)
    (List.mem_map_of_mem _ (by decide))

/-- Claim C10: a supplied predicted price of `0` at an in-range slot is falsy
in JS, so `predicted_prices[i] || avgPrice` replaces it by the arithmetic
mean of the whole supplied array, and the slot's `bid_price` and
`expected_profit` are computed from that mean, never from the value `0`:
whenever the risk factor is a number `rf` (every `risk_level` except the
inherited `Object.prototype` keys, for which both fields are `NaN` and
still owe nothing to the supplied `0`), the two fields equal the stated
formulas in the mean. -/
theorem C10_zero_price_mean_fallback (ps : List ℚ) (mc : ℚ) (rl : String) (i : ℕ) (rf : ℚ)
    (hi : i < 96) (h0 : ps[i]? = some 0) (hrf : riskFactor rl = some rf) :
    (optimizeCore ps mc rl).1[i]? = some (mkBid ps mc rl i) ∧
    (mkBid ps mc rl i).predicted_price = some (ps.sum / (ps.length : ℚ)) ∧
    (mkBid ps mc rl i).bid_price =
      some (round2 ((ps.sum / (ps.length : ℚ)) * priceRatio (i / 4) * rf)) ∧
    (mkBid ps mc rl i).expected_profit =
      some (jround (bidQuantity mc i *
        (round2 ((ps.sum / (ps.length : ℚ)) * priceRatio (i / 4) * rf) -
          (ps.sum / (ps.length : ℚ)) * (7/10)) * winProbRaw i)) := by
  have hne : ps ≠ [] := by
    rintro rfl
    simp at h0
  have hpp : predictedPriceAt ps i = some (ps.sum / (ps.length : ℚ)) := by
    unfold predictedPriceAt
    rw [h0]
    simp [avgPrice, hne]
  have hbp : (mkBid ps mc rl i).bid_price =
      some (round2 ((ps.sum / (ps.length : ℚ)) * priceRatio (i / 4) * rf)) := by
    show bidPrice ps rl i = _
    rw [bidPrice, hpp, hrf]
  refine ⟨optimizeCore_fst_getElem _ _ _ i hi, hpp, hbp, ?_⟩
  show expectedProfit ps mc rl i = _
  rw [expectedProfit, hpp]
  rw [show bidPrice ps rl i =
      some (round2 ((ps.sum / (ps.length : ℚ)) * priceRatio (i / 4) * rf)) from hbp]

/-- Witness for C10 at `predicted_prices = [0, 500]`, slot 0 (mean 250),
`risk_level = "medium"` (risk factor 1). -/
theorem C10_witness :
    (optimizeCore [(0:ℚ), (500:ℚ)] 1000 ("medium")).1[0]? =
      some (mkBid [(0:ℚ), (500:ℚ)] 1000 ("medium") 0) ∧
    (mkBid [(0:ℚ), (500:ℚ)] 1000 ("medium") 0).predicted_price =
      some (List.sum [(0:ℚ), (500:ℚ)] / ((List.length [(0:ℚ), (500:ℚ)] : ℕ) : ℚ)) ∧
    (mkBid [(0:ℚ), (500:ℚ)] 1000 ("medium") 0).bid_price =
      some (round2 ((List.sum [(0:ℚ), (500:ℚ)] / ((List.length [(0:ℚ), (500:ℚ)] : ℕ) : ℚ)) *
        priceRatio (0 / 4) * (1:ℚ))) ∧
    (mkBid [(0:ℚ), (500:ℚ)] 1000 ("medium") 0).expected_profit =
      some (jround (bidQuantity 1000 0 *
        (round2 ((List.sum [(0:ℚ), (500:ℚ)] / ((List.length [(0:ℚ), (500:ℚ)] : ℕ) : ℚ)) *
          priceRatio (0 / 4) * (1:ℚ)) -
          (List.sum [(0:ℚ), (500:ℚ)] / ((List.length [(0:ℚ), (500:ℚ)] : ℕ) : ℚ)) * (7/10)) *
        winProbRaw 0)) :=
  C10_zero_price_mean_fallback [(0:ℚ), (500:ℚ)] 1000 ("medium") 0 1 (by norm_num) (by decide) rfl

end PowerMarket
